import Mathlib

/-!
Shallow embedding of the JustiFi payment addons
(`payment_justifi` and `pos_payment_justifi`).

Python dictionaries whose fields are only read with `.get` and truthiness
checks are embedded as structures of `String` fields where the empty string
plays the role of an absent / falsy value (Python treats `None`, `False`
and `''` uniformly in every use site embedded here), or as `Option` fields
where the code distinguishes a missing key from an empty value.
HTTP calls are embedded by passing the outcome of the call (network error,
or a response with a status code and a parsed body) as an explicit
argument.  Exceptions (`ValidationError`, bare `Exception`) become
`Except String`.  The `uuid.uuid4()` draw in the terminal-pay request
builders is an explicit argument standing for the freshly generated value.
-/

namespace JustiFi

/-! ## `payment_justifi/const.py` -/

/-- Constant `API_BASE_URL` from `const.py`. -/
def API_BASE_URL : String := "https://api.justifi.ai"

/-- Constant `OAUTH_TOKEN_URL` from `const.py`. -/
def OAUTH_TOKEN_URL : String := API_BASE_URL ++ "/oauth/token"

/-- Constant `CHECKOUTS_URL` from `const.py`. -/
def CHECKOUTS_URL : String := API_BASE_URL ++ "/v1/checkouts"

/-- Table `STATUS_MAPPING` from `const.py`, a Python dict embedded as an
association list in source order. -/
def STATUS_MAPPING : List (String × String) :=
  [("completed", "done"),
   ("succeeded", "done"),
   ("pending", "pending"),
   ("created", "pending"),
   ("failed", "error"),
   ("canceled", "cancel")]

/-- Python `d.get(k)` on an association-list dict: `some v` when the key is
present, `none` otherwise (first binding wins; keys are unique). -/
def dictGet (d : List (String × String)) (k : String) : Option String :=
  (d.find? (fun p => p.1 == k)).map Prod.snd

/-- Lookup `STATUS_MAPPING.get(status, 'pending')` as used by
`_justifi_process_payment_data`. -/
def statusMappingGetD (status : String) : String :=
  (dictGet STATUS_MAPPING status).getD "pending"

/-- The keys of `STATUS_MAPPING`, in source order. -/
def statusMappingKeys : List String := STATUS_MAPPING.map Prod.fst

/-- The values of `STATUS_MAPPING`, in source order. -/
def statusMappingValues : List String := STATUS_MAPPING.map Prod.snd

/-- The four Odoo transaction states the mapping targets. -/
def odooStates : List String := ["done", "pending", "error", "cancel"]

/-! ## SHA-256 (FIPS 180-4) over byte lists, 32-bit words as `Nat` mod 2^32

`_verify_webhook_signature` calls `hmac.new(secret, payload,
hashlib.sha256).hexdigest()`; the hash itself is the Python standard
library, embedded here directly from FIPS 180-4 / RFC 2104 so the
verification function is fully executable. -/

/-- Truncation to a 32-bit word. -/
def w32 (n : Nat) : Nat := n % 4294967296

/-- Right rotation of a 32-bit word. -/
def rotr32 (n x : Nat) : Nat := w32 ((x >>> n) ||| (x <<< (32 - n)))

/-- SHA-256 `Ch(x,y,z)`; bitwise complement is xor with the 32-bit mask. -/
def shaCh (x y z : Nat) : Nat := (x &&& y) ^^^ ((x ^^^ 4294967295) &&& z)

/-- SHA-256 `Maj(x,y,z)`. -/
def shaMaj (x y z : Nat) : Nat := (x &&& y) ^^^ (x &&& z) ^^^ (y &&& z)

/-- SHA-256 `Σ₀`. -/
def bigSigma0 (x : Nat) : Nat := rotr32 2 x ^^^ rotr32 13 x ^^^ rotr32 22 x

/-- SHA-256 `Σ₁`. -/
def bigSigma1 (x : Nat) : Nat := rotr32 6 x ^^^ rotr32 11 x ^^^ rotr32 25 x

/-- SHA-256 `σ₀`. -/
def smallSigma0 (x : Nat) : Nat := rotr32 7 x ^^^ rotr32 18 x ^^^ (x >>> 3)

/-- SHA-256 `σ₁`. -/
def smallSigma1 (x : Nat) : Nat := rotr32 17 x ^^^ rotr32 19 x ^^^ (x >>> 10)

/-- The 64 SHA-256 round constants, in decimal. -/
def shaK : List Nat :=
  [1116352408, 1899447441, 3049323471, 3921009573, 961987163, 1508970993,
   2453635748, 2870763221, 3624381080, 310598401, 607225278, 1426881987,
   1925078388, 2162078206, 2614888103, 3248222580, 3835390401, 4022224774,
   264347078, 604807628, 770255983, 1249150122, 1555081692, 1996064986,
   2554220882, 2821834349, 2952996808, 3210313671, 3336571891, 3584528711,
   113926993, 338241895, 666307205, 773529912, 1294757372, 1396182291,
   1695183700, 1986661051, 2177026350, 2456956037, 2730485921, 2820302411,
   3259730800, 3345764771, 3516065817, 3600352804, 4094571909, 275423344,
   430227734, 506948616, 659060556, 883997877, 958139571, 1322822218,
   1537002063, 1747873779, 1955562222, 2024104815, 2227730452, 2361852424,
   2428436474, 2756734187, 3204031479, 3329325298]

/-- The SHA-256 initial hash state, in decimal. -/
def shaH0 : List Nat :=
  [1779033703, 3144134277, 1013904242, 2773480762,
   1359893119, 2600822924, 528734635, 1541459225]

/-- The `k` bytes of `n`, big endian. -/
def toBytesBE (k n : Nat) : List Nat :=
  (List.range k).map (fun i => (n >>> (8 * (k - 1 - i))) % 256)

/-- Number of zero bytes inserted between the `0x80` byte and the 8-byte
length so the padded message length is a multiple of 64. -/
def shaZeroPad (len : Nat) : Nat := (119 - len % 64) % 64

/-- SHA-256 message padding. -/
def sha256Pad (msg : List Nat) : List Nat :=
  msg ++ (128 :: List.replicate (shaZeroPad msg.length) 0) ++ toBytesBE 8 (8 * msg.length)

/-- Big-endian 32-bit words from a byte list (groups of four). -/
def bytesToWords : List Nat → List Nat
  | b0 :: b1 :: b2 :: b3 :: rest =>
      (b0 <<< 24 ||| b1 <<< 16 ||| b2 <<< 8 ||| b3) :: bytesToWords rest
  | _ => []

/-- Split a byte list into 64-byte blocks (fuel-driven structural
recursion; the fuel `l.length` dominates the block count). -/
def chunksAux : Nat → List Nat → List (List Nat)
  | 0, _ => []
  | _, [] => []
  | fuel + 1, l => l.take 64 :: chunksAux fuel (l.drop 64)

/-- The 64-byte blocks of a byte list. -/
def chunks64 (l : List Nat) : List (List Nat) := chunksAux l.length l

/-- Extend the 16 message-schedule words to 64. -/
def scheduleExtend : Nat → List Nat → List Nat
  | 0, acc => acc
  | n + 1, acc =>
      let t := acc.length
      let wNew := w32 (smallSigma1 (acc.getD (t - 2) 0) + acc.getD (t - 7) 0 +
        smallSigma0 (acc.getD (t - 15) 0) + acc.getD (t - 16) 0)
      scheduleExtend n (acc ++ [wNew])

/-- The 64-entry message schedule of one block. -/
def schedule (block : List Nat) : List Nat := scheduleExtend 48 (bytesToWords block)

/-- One round of the SHA-256 compression function on state
`[a,b,c,d,e,f,g,h]`. -/
def compressStep (st : List Nat) (kw : Nat × Nat) : List Nat :=
  match st with
  | [a, b, c, d, e, f, g, h] =>
      let t1 := w32 (h + bigSigma1 e + shaCh e f g + kw.1 + kw.2)
      let t2 := w32 (bigSigma0 a + shaMaj a b c)
      [w32 (t1 + t2), a, b, c, w32 (d + t1), e, f, g]
  | _ => st

/-- Process one 64-byte block into the running hash state. -/
def processBlock (h : List Nat) (block : List Nat) : List Nat :=
  let st := List.foldl compressStep h (shaK.zip (schedule block))
  (h.zip st).map (fun p => w32 (p.1 + p.2))

/-- SHA-256 digest, bytes to bytes. -/
def sha256 (msg : List Nat) : List Nat :=
  ((chunks64 (sha256Pad msg)).foldl processBlock shaH0).flatMap (toBytesBE 4)

/-- The HMAC key block: `sha256` of the key when it exceeds the 64-byte
block size, then zero-padded to 64 bytes. -/
def hmacKeyBlock (key : List Nat) : List Nat :=
  let k := if 64 < key.length then sha256 key else key
  k ++ List.replicate (64 - k.length) 0

/-- HMAC-SHA256 (`hmac.new(key, msg, hashlib.sha256)`), bytes to bytes. -/
def hmacSha256 (key msg : List Nat) : List Nat :=
  let block := hmacKeyBlock key
  let ipad := block.map (fun b => b ^^^ 0x36)
  let opad := block.map (fun b => b ^^^ 0x5c)
  sha256 (opad ++ sha256 (ipad ++ msg))

/-- One lowercase hexadecimal digit. -/
def hexDigit (n : Nat) : Char :=
  if n < 10 then Char.ofNat (48 + n) else Char.ofNat (87 + n)

/-- Lowercase hexadecimal rendering of a byte list (Python
`.hexdigest()`). -/
def hexOfBytes (bs : List Nat) : String :=
  String.mk (bs.flatMap (fun b => [hexDigit (b / 16 % 16), hexDigit (b % 16)]))

/-- UTF-8 encoding of one character (Python `str.encode('utf-8')`). -/
def charUtf8 (c : Char) : List Nat :=
  let n := c.toNat
  if n < 128 then [n]
  else if n < 2048 then [0xc0 ||| (n >>> 6), 0x80 ||| (n &&& 63)]
  else if n < 65536 then
    [0xe0 ||| (n >>> 12), 0x80 ||| ((n >>> 6) &&& 63), 0x80 ||| (n &&& 63)]
  else
    [0xf0 ||| (n >>> 18), 0x80 ||| ((n >>> 12) &&& 63),
     0x80 ||| ((n >>> 6) &&& 63), 0x80 ||| (n &&& 63)]

/-- UTF-8 encoding of a string as a byte list. -/
def utf8Encode (s : String) : List Nat := s.data.flatMap charUtf8

/-! ## `payment_justifi/controllers/main.py`: signature verification -/

/-- Python `hmac.compare_digest` on two digest strings: functionally equality
(its constant-time execution is a timing property with no counterpart in
a functional embedding). -/
def compare_digest (a b : String) : Bool := a == b

/-- Method `JustiFiController._verify_webhook_signature(payload, signature,
secret)`.  The source decodes a `bytes` payload as UTF-8 and re-encodes
it before hashing, so the embedding takes the payload as the decoded
string. -/
def verify_webhook_signature (payload signature secret : String) : Bool :=
  let expected := hexOfBytes (hmacSha256 (utf8Encode secret) (utf8Encode payload))
  compare_digest expected signature

/-! ## `payment_justifi/models/payment_transaction.py` -/

/-- The state-changing call `_justifi_process_payment_data` makes on the
transaction.  `setDonePostProcess` is `_set_done()` followed by the
`_post_process()` call made only in that branch; `noCall` is the
structurally present fall-through of the `if/elif` chain. -/
inductive TxAction where
  | setDonePostProcess
  | setPending
  | setError (msg : String)
  | setCanceled
  | noCall
  deriving DecidableEq, Repr

/-- A `payment.transaction` record: the fields read by the embedded code.
`""` stands for a falsy (absent) `provider_reference`. -/
structure Tx where
  id : Nat
  state : String
  provider_reference : String
  provider_id : Nat
  deriving DecidableEq, Repr

/-- The JustiFi payload dict as read by `_justifi_process_payment_data`
and the webhook handlers: `checkout_id`, `id`, `status`,
`successful_payment_id` and the nested `error.message`.  `""` stands for
an absent/falsy value except for `error_message`, where
`.get('message', 'Payment failed')` distinguishes a missing key (`none`)
from a present empty value. -/
structure PaymentData where
  checkout_id : String
  id : String
  status : String
  successful_payment_id : String
  error_message : Option String
  deriving DecidableEq, Repr

/-- Method `PaymentTransaction._justifi_process_payment_data(payment_data)`:
returns the transaction with its `provider_reference` update applied and
the state transition invoked. -/
def process_payment_data (tx : Tx) (d : PaymentData) : Tx × TxAction :=
  let checkout_id := if d.checkout_id ≠ "" then d.checkout_id else d.id
  let payment_id := d.successful_payment_id
  let odoo_state := statusMappingGetD d.status
  let tx1 :=
    if payment_id ≠ "" then { tx with provider_reference := payment_id }
    else if checkout_id ≠ "" ∧ tx.provider_reference = "" then
      { tx with provider_reference := checkout_id }
    else tx
  let action :=
    if odoo_state = "done" then TxAction.setDonePostProcess
    else if odoo_state = "pending" then TxAction.setPending
    else if odoo_state = "error" then
      TxAction.setError ("JustiFi: " ++ d.error_message.getD "Payment failed")
    else if odoo_state = "cancel" then TxAction.setCanceled
    else TxAction.noCall
  (tx1, action)

/-- Odoo `search([('provider_reference','=',ref), ('provider_id','=',pid)],
limit=1)`: the first matching record. -/
def searchTxByRef (txs : List Tx) (ref : String) (providerId : Nat) : Option Tx :=
  txs.find? (fun t => t.provider_reference == ref && t.provider_id == providerId)

/-- The notification dict fields read by
`_justifi_get_tx_from_notification_data`: the top-level `checkout_id` and
`successful_payment_id` keys and the nested `data.id` and
`data.successful_payment_id`.  `""` stands for an absent/falsy value. -/
structure NotificationData where
  checkout_id : String
  successful_payment_id : String
  data_id : String
  data_successful_payment_id : String
  deriving DecidableEq, Repr

/-- Python `a or b` on falsy-capable strings. -/
def strOr (a b : String) : String := if a ≠ "" then a else b

/-- Method `PaymentTransaction._justifi_get_tx_from_notification_data(provider,
notification_data)` searching the transactions of provider `providerId`
among `txs`. -/
def get_tx_from_notification_data (providerId : Nat) (txs : List Tx)
    (nd : NotificationData) : Except String Tx :=
  let checkout_id := strOr nd.checkout_id nd.data_id
  let payment_id := strOr nd.successful_payment_id nd.data_successful_payment_id
  if checkout_id = "" ∧ payment_id = "" then
    Except.error "JustiFi: Missing checkout_id or payment_id in notification data"
  else
    let tx1 := if checkout_id ≠ "" then searchTxByRef txs checkout_id providerId else none
    let tx2 :=
      if tx1 = none ∧ payment_id ≠ "" then searchTxByRef txs payment_id providerId else tx1
    match tx2 with
    | some t => Except.ok t
    | none => Except.error "JustiFi: Transaction not found"

/-! ## `payment_justifi/models/payment_provider.py` -/

/-- Outcome of one `requests` HTTP call: a raised
`requests.exceptions.RequestException`, or a response with its status
code and parsed body. -/
inductive HttpOutcome (β : Type) where
  | netError
  | resp (status : Nat) (body : β)
  deriving DecidableEq, Repr

/-- The body of the OAuth token response, as read with
`data.get('access_token')`. -/
structure TokenBody where
  access_token : Option String
  deriving DecidableEq, Repr

/-- A `payment.provider` record: the fields read by the embedded code.
`""` stands for an unset field (Odoo `Char` fields are falsy when
unset). -/
structure Provider where
  id : Nat
  code : String
  state : String
  justifi_client_id : String
  justifi_client_secret : String
  justifi_account_id : String
  justifi_webhook_secret : String
  deriving DecidableEq, Repr

/-- Method `PaymentProvider._justifi_get_access_token()`, with the outcome of the
`requests.post(OAUTH_TOKEN_URL, ...)` call as argument. -/
def get_access_token (client_id client_secret : String)
    (call : HttpOutcome TokenBody) : Except String String :=
  if client_id = "" ∨ client_secret = "" then
    Except.error "JustiFi Client ID and Client Secret are required."
  else
    match call with
    | HttpOutcome.netError =>
        Except.error "Could not connect to JustiFi. Please try again later."
    | HttpOutcome.resp status body =>
        if status ≠ 200 then
          Except.error "JustiFi authentication failed. Please check your credentials."
        else
          match body.access_token with
          | none => Except.error "JustiFi authentication failed. No access token received."
          | some tok =>
              if tok = "" then
                Except.error "JustiFi authentication failed. No access token received."
              else Except.ok tok

/-! ## `payment_justifi/controllers/main.py`: webhook endpoint -/

/-- The dict returned by the webhook route: `{'status': 'ok'}` or
`{'status': 'error', 'message': msg}`. -/
inductive WebhookResult where
  | ok
  | error (msg : String)
  deriving DecidableEq, Repr

/-- Odoo `search([('code','=','justifi'), ('state','!=','disabled')],
limit=1)` over payment providers. -/
def searchJustifiProvider (providers : List Provider) : Option Provider :=
  providers.find? (fun p => p.code == "justifi" && p.state != "disabled")

/-- Method `JustiFiController._handle_payment_success(provider, event_data)`:
the `_justifi_process_payment_data` invocation it makes, as the target
transaction and the payload passed (after the handler's in-place
`event_data['status'] = 'completed'` and `event_data['checkout_id']`
writes), or `none` when no invocation happens. -/
def handle_payment_success (txs : List Tx) (provider : Provider)
    (ed : PaymentData) : Option (Tx × PaymentData) :=
  let checkout_id := ed.id
  let payment_id := ed.successful_payment_id
  let tx1 := if checkout_id ≠ "" then searchTxByRef txs checkout_id provider.id else none
  let tx2 :=
    if tx1 = none ∧ payment_id ≠ "" then searchTxByRef txs payment_id provider.id else tx1
  match tx2 with
  | some t =>
      if t.state ≠ "done" ∧ t.state ≠ "cancel" then
        some (t, { ed with status := "completed", checkout_id := checkout_id })
      else none
  | none => none

/-- Method `JustiFiController._handle_payment_failure(provider, event_data)`:
the `_justifi_process_payment_data` invocation it makes, or `none`. -/
def handle_payment_failure (txs : List Tx) (provider : Provider)
    (ed : PaymentData) : Option (Tx × PaymentData) :=
  let checkout_id := ed.id
  match searchTxByRef txs checkout_id provider.id with
  | some t =>
      if t.state ≠ "done" ∧ t.state ≠ "cancel" then
        some (t, { ed with status := "failed", checkout_id := checkout_id })
      else none
  | none => none

/-- The event dispatch at the end of `justifi_webhook`: route the event
type to the matching handler. -/
def webhook_dispatch (txs : List Tx) (provider : Provider)
    (event_type : String) (ed : PaymentData) : WebhookResult × Option (Tx × PaymentData) :=
  if event_type = "payment.succeeded" ∨ event_type = "checkout.completed" then
    (WebhookResult.ok, handle_payment_success txs provider ed)
  else if event_type = "payment.failed" then
    (WebhookResult.ok, handle_payment_failure txs provider ed)
  else (WebhookResult.ok, none)

/-- Route `JustiFiController.justifi_webhook()`: `rawBody` is the decoded
request body (`request.httprequest.data`), `signatureHeader` the
`Justifi-Signature` header with the `''` default, `event_type` and `ed`
the parsed JSON fields.  Returns the route's result dict and the
`_justifi_process_payment_data` invocation made, if any. -/
def justifi_webhook (providers : List Provider) (txs : List Tx)
    (rawBody signatureHeader event_type : String) (ed : PaymentData) :
    WebhookResult × Option (Tx × PaymentData) :=
  match searchJustifiProvider providers with
  | none => (WebhookResult.error "Provider not found", none)
  | some provider =>
      if provider.justifi_webhook_secret ≠ "" ∧ signatureHeader ≠ "" ∧
          verify_webhook_signature rawBody signatureHeader provider.justifi_webhook_secret
            = false then
        (WebhookResult.error "Invalid signature", none)
      else webhook_dispatch txs provider event_type ed

/-! ## `pos_payment_justifi`: terminal pay and cancel -/

/-- Constant `TERMINALS_URL`, defined identically in
`pos_payment_justifi/models/pos_payment_method.py` and
`pos_payment_justifi/controllers/main.py`. -/
def TERMINALS_URL : String := "https://api.justifi.ai/v1/terminals"

/-- An outgoing `requests.post` call: URL, headers and JSON payload (all
payloads here are flat string-to-string objects). -/
structure TerminalRequest where
  url : String
  headers : List (String × String)
  payload : List (String × String)
  deriving DecidableEq, Repr

/-- The request built by `PosPaymentMethod._justifi_send_to_terminal`
(`pos_payment_justifi/models/pos_payment_method.py`): `idemKey` is the
`str(uuid.uuid4())` freshly drawn for this call. -/
def send_to_terminal_model_request (accessToken accountId idemKey terminalId checkoutId :
    String) : TerminalRequest :=
  { url := TERMINALS_URL ++ "/pay"
    headers := [("Authorization", "Bearer " ++ accessToken),
                ("Content-Type", "application/json"),
                ("Sub-Account", accountId),
                ("Idempotency-Key", idemKey)]
    payload := [("checkout_id", checkoutId), ("terminal_id", terminalId)] }

/-- The request built by `PosJustiFiController._send_to_terminal`
(`pos_payment_justifi/controllers/main.py`): `idemKey` is the
`str(uuid.uuid4())` freshly drawn for this call. -/
def send_to_terminal_controller_request (accessToken accountId idemKey terminalId checkoutId :
    String) : TerminalRequest :=
  { url := TERMINALS_URL ++ "/" ++ terminalId ++ "/pay"
    headers := [("Authorization", "Bearer " ++ accessToken),
                ("Content-Type", "application/json"),
                ("Sub-Account", accountId),
                ("Idempotency-Key", idemKey)]
    payload := [("checkout_id", checkoutId)] }

/-- Python `dict.get` over a header or payload association list. -/
def lookupField (d : List (String × String)) (k : String) : Option String :=
  (d.find? (fun p => p.1 == k)).map Prod.snd

/-- A minimal JSON value, enough for the cancel response bodies:
`response.json()` yields `none` when the body is not JSON. -/
inductive JsonVal where
  | str (s : String)
  | obj (fields : List (String × JsonVal))

/-- Lookup `j.get(k)` on a JSON object (`none` on other shapes or missing key). -/
def jsonGet (j : JsonVal) (k : String) : Option JsonVal :=
  match j with
  | JsonVal.obj fs => (fs.find? (fun p => p.1 == k)).map Prod.snd
  | _ => none

/-- Method `PosPaymentMethod._justifi_cancel_terminal_action(provider,
terminal_id, checkout_id)`: obtains the access token via
`get_access_token` (the outcome of the token HTTP call is `tokenCall`),
then posts to `TERMINALS_URL/{terminal_id}/cancel` (outcome `post`; its
body is `none` when `response.json()` fails).  A status `>= 400` is only
logged, never raised; the result is `data.get('data', data)`, or the
empty dict when the body is not JSON. -/
def cancel_terminal_action (provider : Provider) (tokenCall : HttpOutcome TokenBody)
    (post : HttpOutcome (Option JsonVal)) : Except String JsonVal :=
  match get_access_token provider.justifi_client_id provider.justifi_client_secret tokenCall with
  | Except.error e => Except.error e
  | Except.ok _ =>
      match post with
      | HttpOutcome.netError => Except.error "requests.exceptions.RequestException"
      | HttpOutcome.resp _ body =>
          match body with
          | some j => Except.ok ((jsonGet j "data").getD j)
          | none => Except.ok (JsonVal.obj [])

/-- The dict returned by `PosPaymentMethod.justifi_cancel_payment`:
`{'success': True, 'cancelled': True}` or `{'error': msg}`. -/
inductive CancelResp where
  | success
  | errorResp (msg : String)
  deriving DecidableEq, Repr

/-- Method `PosPaymentMethod.justifi_cancel_payment(checkout_id, terminal_id)`:
finds the active JustiFi provider, runs
`_justifi_cancel_terminal_action`, and converts any raised exception into
an error dict via the enclosing `try/except`. -/
def justifi_cancel_payment (providers : List Provider) (tokenCall : HttpOutcome TokenBody)
    (post : HttpOutcome (Option JsonVal)) : CancelResp :=
  match searchJustifiProvider providers with
  | none => CancelResp.errorResp "JustiFi provider not found"
  | some provider =>
      match cancel_terminal_action provider tokenCall post with
      | Except.ok _ => CancelResp.success
      | Except.error e => CancelResp.errorResp e

/-! ## Sanity checks of the hash embedding against published test vectors -/

/-- FIPS 180-4 test vector: SHA-256 of the empty message. -/
theorem sha256_vector_empty :
    hexOfBytes (sha256 []) =
      "e3b0c44298fc1c149afbf4c8996fb92427ae41e4649b934ca495991b7852b855" := by
  rfl

/-- FIPS 180-4 test vector: SHA-256 of `"abc"`. -/
theorem sha256_vector_abc :
    hexOfBytes (sha256 (utf8Encode "abc")) =
      "ba7816bf8f01cfea414140de5dae2223b00361a396177a9cb410ff61f20015ad" := by
  rfl

set_option maxRecDepth 100000 in
/-- Classic HMAC-SHA256 test vector (key `"key"`, the quick brown fox). -/
theorem hmacSha256_vector :
    hexOfBytes (hmacSha256 (utf8Encode "key")
        (utf8Encode "The quick brown fox jumps over the lazy dog")) =
      "f7bc83f430538424b13298e6aa6fb143ef4d59a14946175997479dbc2d1a3cd8" := by
  rfl

/-! ## Claims -/

/-- C1, counterexample: `STATUS_MAPPING` has six keys, not five. -/
theorem statusMapping_keys_count_not_five :
    statusMappingKeys.length = 6 ∧ ¬ statusMappingKeys.length = 5 := by
  decide

/-- C1, amended: `STATUS_MAPPING` is a fixed dictionary with exactly six
vendor status strings as keys (`completed`, `succeeded`, `pending`,
`created`, `failed`, `canceled`), each mapped to one of the four local
states `done`, `pending`, `error`, `cancel`, and all four states are
attained. -/
theorem statusMapping_six_keys_four_states :
    statusMappingKeys =
        ["completed", "succeeded", "pending", "created", "failed", "canceled"] ∧
      statusMappingKeys.Nodup ∧
      (∀ v ∈ statusMappingValues, v ∈ odooStates) ∧
      (∀ s ∈ odooStates, s ∈ statusMappingValues) := by
  decide

/-- C2: `_verify_webhook_signature(payload, signature, secret)` returns
`True` exactly when the lowercase hexadecimal HMAC-SHA256 of the payload
keyed by the secret equals the header signature.  The comparison in the
source is `hmac.compare_digest`, whose functional behaviour is equality
(its constant-time execution has no counterpart in this embedding). -/
theorem verify_webhook_signature_iff (payload signature secret : String) :
    verify_webhook_signature payload signature secret = true ↔
      hexOfBytes (hmacSha256 (utf8Encode secret) (utf8Encode payload)) = signature := by
  simp [verify_webhook_signature, compare_digest]

set_option maxRecDepth 8000 in
/-- C4: the two terminal-pay implementations do not issue the same HTTP
request.  At terminal `trm_1` and checkout `cho_1`, the POS model posts to
`/v1/terminals/pay` with the terminal id in the JSON body (the endpoint
its own comment calls correct), while the POS controller posts to
`/v1/terminals/trm_1/pay` without the terminal id in the body. -/
theorem send_to_terminal_requests_differ :
    (send_to_terminal_model_request "tok" "acc_1" "u" "trm_1" "cho_1").url ≠
        (send_to_terminal_controller_request "tok" "acc_1" "u" "trm_1" "cho_1").url ∧
      (send_to_terminal_model_request "tok" "acc_1" "u" "trm_1" "cho_1").payload ≠
        (send_to_terminal_controller_request "tok" "acc_1" "u" "trm_1" "cho_1").payload ∧
      (send_to_terminal_model_request "tok" "acc_1" "u" "trm_1" "cho_1").url =
        "https://api.justifi.ai/v1/terminals/pay" ∧
      (send_to_terminal_controller_request "tok" "acc_1" "u" "trm_1" "cho_1").url =
        "https://api.justifi.ai/v1/terminals/trm_1/pay" := by
  decide

/-- C5: both terminal-pay request builders send an `Idempotency-Key`
header whose value is exactly the `str(uuid.uuid4())` drawn for that
call (embedded as the explicit `idemKey` argument). -/
theorem terminal_pay_idempotency_key_header
    (accessToken accountId idemKey terminalId checkoutId : String) :
    lookupField (send_to_terminal_model_request accessToken accountId idemKey terminalId
        checkoutId).headers "Idempotency-Key" = some idemKey ∧
      lookupField (send_to_terminal_controller_request accessToken accountId idemKey terminalId
        checkoutId).headers "Idempotency-Key" = some idemKey := by
  constructor <;> rfl

/-- C6: `_justifi_get_access_token` returns a token exactly when the
credentials are set, the HTTP call produced a 200 response, and the
response body carries a present, non-empty `access_token`; in every other
case (missing credentials, network error, non-200 status, missing or
empty token) it raises `ValidationError`. -/
theorem get_access_token_spec (client_id client_secret : String)
    (call : HttpOutcome TokenBody) :
    (∀ tok, get_access_token client_id client_secret call = Except.ok tok ↔
      (client_id ≠ "" ∧ client_secret ≠ "" ∧
        call = HttpOutcome.resp 200 ⟨some tok⟩ ∧ tok ≠ "")) ∧
    ((¬ ∃ tok, client_id ≠ "" ∧ client_secret ≠ "" ∧
        call = HttpOutcome.resp 200 ⟨some tok⟩ ∧ tok ≠ "") →
      ∃ msg, get_access_token client_id client_secret call = Except.error msg) := by
  constructor
  · intro tok
    rcases call with _ | ⟨status, ⟨_ | t⟩⟩ <;> simp [get_access_token] <;> aesop
  · intro hno
    rcases call with _ | ⟨status, ⟨_ | t⟩⟩ <;> simp [get_access_token] <;> aesop

/-- C7: `_justifi_get_tx_from_notification_data` raises when neither a
checkout id nor a payment id is present; otherwise it searches by
`provider_reference = checkout_id` first, falls back to the payment id
only when that search matched nothing, and raises when no transaction
matches either. -/
theorem get_tx_from_notification_spec (providerId : Nat) (txs : List Tx)
    (nd : NotificationData) :
    (strOr nd.checkout_id nd.data_id = "" ∧
        strOr nd.successful_payment_id nd.data_successful_payment_id = "" →
      get_tx_from_notification_data providerId txs nd =
        Except.error "JustiFi: Missing checkout_id or payment_id in notification data") ∧
    (∀ t, strOr nd.checkout_id nd.data_id ≠ "" →
      searchTxByRef txs (strOr nd.checkout_id nd.data_id) providerId = some t →
      get_tx_from_notification_data providerId txs nd = Except.ok t) ∧
    (∀ t, (strOr nd.checkout_id nd.data_id = "" ∨
        searchTxByRef txs (strOr nd.checkout_id nd.data_id) providerId = none) →
      strOr nd.successful_payment_id nd.data_successful_payment_id ≠ "" →
      searchTxByRef txs (strOr nd.successful_payment_id nd.data_successful_payment_id)
          providerId = some t →
      get_tx_from_notification_data providerId txs nd = Except.ok t) ∧
    ((strOr nd.checkout_id nd.data_id = "" ∨
        searchTxByRef txs (strOr nd.checkout_id nd.data_id) providerId = none) →
      (strOr nd.successful_payment_id nd.data_successful_payment_id = "" ∨
        searchTxByRef txs (strOr nd.successful_payment_id nd.data_successful_payment_id)
          providerId = none) →
      ¬ (strOr nd.checkout_id nd.data_id = "" ∧
          strOr nd.successful_payment_id nd.data_successful_payment_id = "") →
      get_tx_from_notification_data providerId txs nd =
        Except.error "JustiFi: Transaction not found") := by
  refine ⟨?_, ?_, ?_, ?_⟩
  · intro h
    simp [get_tx_from_notification_data, h.1, h.2]
  · intro t hc hfind
    simp [get_tx_from_notification_data, hc, hfind]
  · intro t hc hp hfind
    rcases hc with hc | hc
    · simp [get_tx_from_notification_data, hc, hp, hfind]
    · by_cases hcz : strOr nd.checkout_id nd.data_id = "" <;>
        simp [get_tx_from_notification_data, hcz, hc, hp, hfind]
  · intro hc hp hne
    rcases hc with hc | hc <;> rcases hp with hp | hp <;>
      by_cases hcz : strOr nd.checkout_id nd.data_id = "" <;>
      simp_all [get_tx_from_notification_data]

set_option maxRecDepth 200000 in
/-- Witness for C2 at a concrete input: the correct HMAC-SHA256 hex digest
of a payload is accepted by the verification function. -/
theorem verify_webhook_signature_iff_witness :
    verify_webhook_signature "The quick brown fox jumps over the lazy dog"
      "f7bc83f430538424b13298e6aa6fb143ef4d59a14946175997479dbc2d1a3cd8" "key" = true := by
  exact (verify_webhook_signature_iff "The quick brown fox jumps over the lazy dog"
    "f7bc83f430538424b13298e6aa6fb143ef4d59a14946175997479dbc2d1a3cd8" "key").mpr (by rfl)

/-- Helper: a successful `STATUS_MAPPING.get` enumerates to one of the six
key/value pairs of the table. -/
lemma dictGet_statusMapping_cases (s v : String)
    (h : dictGet STATUS_MAPPING s = some v) :
    (s = "completed" ∧ v = "done") ∨ (s = "succeeded" ∧ v = "done") ∨
      (s = "pending" ∧ v = "pending") ∨ (s = "created" ∧ v = "pending") ∨
      (s = "failed" ∧ v = "error") ∨ (s = "canceled" ∧ v = "cancel") := by
  obtain ⟨p, hfind, hv⟩ := Option.map_eq_some'.mp h
  have hkey : p.1 = s := by simpa using List.find?_some hfind
  have hmem : p ∈ STATUS_MAPPING := List.mem_of_find?_eq_some hfind
  simp only [STATUS_MAPPING, List.mem_cons, List.not_mem_nil, or_false] at hmem
  rcases hmem with hp | hp | hp | hp | hp | hp <;> subst hp <;>
    simp [hkey.symm, ← hv]

/-- C3: for payment data whose `status` is a key of `STATUS_MAPPING`,
`_justifi_process_payment_data` invokes exactly the transition of the
mapped local state: `_set_done` followed by `_post_process` for `done`,
`_set_pending` for `pending`, `_set_error` for `error`, and
`_set_canceled` for `cancel`. -/
theorem process_payment_data_dispatch (tx : Tx) (d : PaymentData) (st : String)
    (h : dictGet STATUS_MAPPING d.status = some st) :
    (st = "done" → (process_payment_data tx d).2 = TxAction.setDonePostProcess) ∧
      (st = "pending" → (process_payment_data tx d).2 = TxAction.setPending) ∧
      (st = "error" → (process_payment_data tx d).2 =
        TxAction.setError ("JustiFi: " ++ d.error_message.getD "Payment failed")) ∧
      (st = "cancel" → (process_payment_data tx d).2 = TxAction.setCanceled) := by
  rcases dictGet_statusMapping_cases d.status st h with
      ⟨hs, hv⟩ | ⟨hs, hv⟩ | ⟨hs, hv⟩ | ⟨hs, hv⟩ | ⟨hs, hv⟩ | ⟨hs, hv⟩ <;>
    subst hv <;>
    refine ⟨?_, ?_, ?_, ?_⟩ <;> intro hst <;>
    simp_all [process_payment_data, statusMappingGetD, dictGet, STATUS_MAPPING]

/-- Witness for C3 at a concrete input: status `failed` maps to `error`
and the invoked transition is `_set_error`. -/
theorem process_payment_data_dispatch_witness :
    dictGet STATUS_MAPPING "failed" = some "error" ∧
      (process_payment_data ⟨1, "pending", "", 7⟩ ⟨"cho_1", "", "failed", "", none⟩).2 =
        TxAction.setError "JustiFi: Payment failed" := by
  refine ⟨by rfl, ?_⟩
  have h := process_payment_data_dispatch ⟨1, "pending", "", 7⟩
    ⟨"cho_1", "", "failed", "", none⟩ "error" (by rfl)
  simpa using h.2.2.1 rfl

/-- C8: the webhook handlers invoke `_justifi_process_payment_data` only
on a transaction whose state is neither `done` nor `cancel`; a
transaction the failure handler finds in a finalized state is left
unchanged.  A webhook therefore never moves a finished or canceled
transaction to another state. -/
theorem webhook_handlers_skip_finalized (txs : List Tx) (provider : Provider)
    (ed : PaymentData) (t : Tx) (d : PaymentData) :
    (handle_payment_success txs provider ed = some (t, d) →
      t.state ≠ "done" ∧ t.state ≠ "cancel") ∧
      (handle_payment_failure txs provider ed = some (t, d) →
        t.state ≠ "done" ∧ t.state ≠ "cancel") ∧
      (∀ t0, searchTxByRef txs ed.id provider.id = some t0 →
        (t0.state = "done" ∨ t0.state = "cancel") →
        handle_payment_failure txs provider ed = none) := by
  refine ⟨?_, ?_, ?_⟩
  · intro h
    unfold handle_payment_success at h
    simp only [] at h
    split at h
    · split at h
      · rename_i t0 hs
        simp only [Option.some.injEq, Prod.mk.injEq] at h
        exact h.1 ▸ hs
      · exact absurd h (by simp)
    · exact absurd h (by simp)
  · intro h
    unfold handle_payment_failure at h
    simp only [] at h
    split at h
    · split at h
      · rename_i t0 hs
        simp only [Option.some.injEq, Prod.mk.injEq] at h
        exact h.1 ▸ hs
      · exact absurd h (by simp)
    · exact absurd h (by simp)
  · intro t0 hfind hfin
    unfold handle_payment_failure
    simp only []
    rw [hfind]
    rcases hfin with hf | hf <;> simp [hf]

/-- Witness for C8 at a concrete input: a pending transaction found by
the success handler is processed, and its state is not finalized. -/
theorem webhook_handlers_skip_finalized_witness :
    handle_payment_success [⟨1, "pending", "c1", 7⟩] ⟨7, "justifi", "enabled", "", "", "", ""⟩
        ⟨"", "c1", "", "", none⟩ =
        some (⟨1, "pending", "c1", 7⟩, ⟨"c1", "c1", "completed", "", none⟩) ∧
      (⟨1, "pending", "c1", 7⟩ : Tx).state ≠ "done" ∧
        (⟨1, "pending", "c1", 7⟩ : Tx).state ≠ "cancel" := by
  refine ⟨by rfl, ?_⟩
  exact (webhook_handlers_skip_finalized [⟨1, "pending", "c1", 7⟩]
    ⟨7, "justifi", "enabled", "", "", "", ""⟩ ⟨"", "c1", "", "", none⟩
    ⟨1, "pending", "c1", 7⟩ ⟨"c1", "c1", "completed", "", none⟩).1 (by rfl)

/-- C9: when an active provider exists, the webhook route checks the
signature only when both a webhook secret is configured and the
`Justifi-Signature` header is non-empty; with either missing, the event
is dispatched with no signature check, and only a present-but-invalid
signature yields the `Invalid signature` error result. -/
theorem webhook_signature_gating (providers : List Provider) (txs : List Tx)
    (rawBody sig event_type : String) (ed : PaymentData) (provider : Provider)
    (h : searchJustifiProvider providers = some provider) :
    ((provider.justifi_webhook_secret = "" ∨ sig = "") →
        justifi_webhook providers txs rawBody sig event_type ed =
          webhook_dispatch txs provider event_type ed) ∧
      (provider.justifi_webhook_secret ≠ "" → sig ≠ "" →
        verify_webhook_signature rawBody sig provider.justifi_webhook_secret = false →
        justifi_webhook providers txs rawBody sig event_type ed =
          (WebhookResult.error "Invalid signature", none)) ∧
      (provider.justifi_webhook_secret ≠ "" → sig ≠ "" →
        verify_webhook_signature rawBody sig provider.justifi_webhook_secret = true →
        justifi_webhook providers txs rawBody sig event_type ed =
          webhook_dispatch txs provider event_type ed) := by
  have e : justifi_webhook providers txs rawBody sig event_type ed =
      if provider.justifi_webhook_secret ≠ "" ∧ sig ≠ "" ∧
          verify_webhook_signature rawBody sig provider.justifi_webhook_secret = false
        then (WebhookResult.error "Invalid signature", none)
        else webhook_dispatch txs provider event_type ed := by
    unfold justifi_webhook
    rw [h]
  refine ⟨?_, ?_, ?_⟩
  · intro hc
    rw [e, if_neg]
    rintro ⟨h1, h2, -⟩
    rcases hc with hc | hc
    · exact h1 hc
    · exact h2 hc
  · intro h1 h2 h3
    rw [e, if_pos ⟨h1, h2, h3⟩]
  · intro h1 h2 h3
    rw [e, if_neg]
    simp [h3]

set_option maxRecDepth 200000 in
/-- Witness for C9 at a concrete input: a configured secret together with
a present-but-invalid signature is rejected with the error result. -/
theorem webhook_signature_gating_witness :
    justifi_webhook [⟨7, "justifi", "enabled", "", "", "", "whsec"⟩] [] "body" "bad"
        "payment.succeeded" ⟨"", "", "", "", none⟩ =
      (WebhookResult.error "Invalid signature", none) := by
  have h := webhook_signature_gating [⟨7, "justifi", "enabled", "", "", "", "whsec"⟩] []
    "body" "bad" "payment.succeeded" ⟨"", "", "", "", none⟩
    ⟨7, "justifi", "enabled", "", "", "", "whsec"⟩ (by rfl)
  exact h.2.1 (by decide) (by decide) (by rfl)

/-- C10, counterexample: with an active provider and the access token
obtained, a network exception raised by the cancel POST itself makes
`justifi_cancel_payment` return an error dict, not
`{'success': True, 'cancelled': True}`. -/
theorem cancel_payment_network_error_not_success :
    get_access_token "cid" "cs" (HttpOutcome.resp 200 ⟨some "tok"⟩) = Except.ok "tok" ∧
      searchJustifiProvider [⟨7, "justifi", "enabled", "cid", "cs", "acc_1", ""⟩] =
        some ⟨7, "justifi", "enabled", "cid", "cs", "acc_1", ""⟩ ∧
      justifi_cancel_payment [⟨7, "justifi", "enabled", "cid", "cs", "acc_1", ""⟩]
        (HttpOutcome.resp 200 ⟨some "tok"⟩) HttpOutcome.netError ≠ CancelResp.success := by
  refine ⟨by rfl, by rfl, ?_⟩
  decide

/-- C10, amended: whenever an active provider exists, the access token is
obtained, and the cancel POST yields a response — of any status,
including `>= 400` — `justifi_cancel_payment` returns the success dict:
`_justifi_cancel_terminal_action` never raises on an error status and
returns a dict, the empty one when the body is not JSON. -/
theorem cancel_payment_success_on_response (providers : List Provider) (provider : Provider)
    (tokenCall : HttpOutcome TokenBody) (tok : String) (s : Nat) (body : Option JsonVal)
    (hp : searchJustifiProvider providers = some provider)
    (ht : get_access_token provider.justifi_client_id provider.justifi_client_secret tokenCall =
      Except.ok tok) :
    justifi_cancel_payment providers tokenCall (HttpOutcome.resp s body) = CancelResp.success ∧
      ∃ d, cancel_terminal_action provider tokenCall (HttpOutcome.resp s body) = Except.ok d ∧
        (body = none → d = JsonVal.obj []) := by
  have e1 : cancel_terminal_action provider tokenCall (HttpOutcome.resp s body) =
      match body with
      | some j => Except.ok ((jsonGet j "data").getD j)
      | none => Except.ok (JsonVal.obj []) := by
    unfold cancel_terminal_action
    rw [ht]
  have e2 : justifi_cancel_payment providers tokenCall (HttpOutcome.resp s body) =
      match cancel_terminal_action provider tokenCall (HttpOutcome.resp s body) with
      | Except.ok _ => CancelResp.success
      | Except.error e => CancelResp.errorResp e := by
    unfold justifi_cancel_payment
    rw [hp]
  rcases body with _ | j
  · exact ⟨by rw [e2, e1], JsonVal.obj [], by rw [e1], fun _ => rfl⟩
  · exact ⟨by rw [e2, e1], (jsonGet j "data").getD j, by rw [e1], by simp⟩

/-- Witness for C10's amended claim at a concrete input: a 500 response
with a non-JSON body still yields the success dict, and the cancel action
returns the empty dict. -/
theorem cancel_payment_success_on_response_witness :
    justifi_cancel_payment [⟨7, "justifi", "enabled", "cid", "cs", "acc_1", ""⟩]
        (HttpOutcome.resp 200 ⟨some "tok"⟩) (HttpOutcome.resp 500 none) = CancelResp.success ∧
      ∃ d, cancel_terminal_action ⟨7, "justifi", "enabled", "cid", "cs", "acc_1", ""⟩
          (HttpOutcome.resp 200 ⟨some "tok"⟩) (HttpOutcome.resp 500 none) = Except.ok d ∧
        ((none : Option JsonVal) = none → d = JsonVal.obj []) := by
  exact cancel_payment_success_on_response [⟨7, "justifi", "enabled", "cid", "cs", "acc_1", ""⟩]
    ⟨7, "justifi", "enabled", "cid", "cs", "acc_1", ""⟩ (HttpOutcome.resp 200 ⟨some "tok"⟩)
    "tok" 500 none (by rfl) (by rfl)

/-- Witness for C6 at concrete inputs: a 200 response with a token
succeeds with that token; a 500 response raises. -/
theorem get_access_token_spec_witness :
    get_access_token "cid" "cs" (HttpOutcome.resp 200 ⟨some "tok"⟩) = Except.ok "tok" ∧
      ∃ msg, get_access_token "cid" "cs" (HttpOutcome.resp 500 ⟨some "tok"⟩) =
        Except.error msg := by
  constructor
  · exact ((get_access_token_spec "cid" "cs" (HttpOutcome.resp 200 ⟨some "tok"⟩)).1 "tok").mpr
      (by refine ⟨by decide, by decide, rfl, by decide⟩)
  · refine (get_access_token_spec "cid" "cs" (HttpOutcome.resp 500 ⟨some "tok"⟩)).2 ?_
    rintro ⟨tok, -, -, hcall, -⟩
    simp at hcall

/-- Witness for C7 at a concrete input: a transaction matching the
checkout id is found by the first search. -/
theorem get_tx_from_notification_spec_witness :
    get_tx_from_notification_data 7 [⟨1, "pending", "cho_1", 7⟩] ⟨"cho_1", "", "", ""⟩ =
      Except.ok ⟨1, "pending", "cho_1", 7⟩ := by
  exact (get_tx_from_notification_spec 7 [⟨1, "pending", "cho_1", 7⟩]
    ⟨"cho_1", "", "", ""⟩).2.1 ⟨1, "pending", "cho_1", 7⟩ (by decide) (by rfl)

end JustiFi
